import Mathlib

/-!
# Verification of the two-player reaction game server

Shallow embedding of the two socket.io server variants shipped in this
repository (a reactive attacker/defender variant and a set-then-guess
variant).  Both servers keep all state in an in-memory `Map` from match
codes to match objects, and drive rounds with `setInterval`/`setTimeout`
callbacks.  We model:

* the match registry as an association list (`lookupE`/`setEnt`/`delEnt`);
* pending `setTimeout`/`setInterval` callbacks as an association list from
  numeric timer ids to callback descriptions (`TimerCb`); firing a timer
  removes it from the pending list, and an interval re-inserts itself under
  the same id unless `clearInterval` (removal by the stored id) happened;
* per-socket server state (`socket.matchCode`, `socket.playerRole`) as an
  association list from socket ids to `Sock`;
* every outbound `io.to(..).emit(..)` as an `Ev` value appended to a log.

Randomness (`Math.random()` inside `generateMatchCode`) and wall-clock reads
(`Date.now()`) are externalized as parameters of the corresponding actions,
so a run of the system is a fold of `runAct` over a list of `Act`s.
-/

/-- Association-list lookup, mirroring `Map.get` on the JS `matches` map
(and lookup of a pending timer by id). -/
def lookupE {κ : Type} {α : Type} [DecidableEq κ] : List (κ × α) → κ → Option α
  | [], _ => none
  | p :: rest, k => if p.1 = k then some p.2 else lookupE rest k

/-- Association-list removal, mirroring `Map.delete` (and `clearTimeout` /
`clearInterval` on the pending-timer list). -/
def delEnt {κ : Type} {α : Type} [DecidableEq κ] (l : List (κ × α)) (k : κ) : List (κ × α) :=
  l.filter (fun p => ¬ p.1 = k)

/-- Association-list update, mirroring `Map.set`: the new binding replaces
any previous binding for the same key. -/
def setEnt {κ : Type} {α : Type} [DecidableEq κ] (l : List (κ × α)) (k : κ) (v : α) :
    List (κ × α) :=
  (k, v) :: delEnt l k

/-- JS truthiness of a `string | null` value: `null` and the empty string
are falsy, every other string is truthy. -/
def truthyStr : Option String → Bool
  | none => false
  | some s => ¬ s = ""

/-- One attacker move awaiting the defender's response
(`match.currentMove` in the reactive variant). -/
structure Move where
  direction : String
  timestamp : Nat
  responded : Bool
deriving DecidableEq

/-- A match object of the reactive variant (`createMatch` handler,
first server file). -/
structure RMatch where
  code : String
  player1 : String
  player2 : Option String
  currentRound : Nat
  totalRounds : Nat
  scores1 : Nat
  scores2 : Nat
  state : String
  currentAttacker : Option String
  currentDefender : Option String
  roundTimer : Option Nat
  currentMove : Option Move
  moveTimeout : Option Nat
  rematch1 : Bool
  rematch2 : Bool
deriving DecidableEq

/-- Outbound notifications (`io.to(..).emit(..)` / `socket.emit(..)`).
Per-socket targets keep the `Option String` of the JS field they are read
from (`io.to(null)` is representable); room targets carry the match code. -/
inductive Ev where
  | matchCreated (tgt : String) (code : String)
  | joinError (tgt : String) (message : String)
  | matchStarted (room : String) (player1 player2 : String)
  | roundStart (tgt : Option String) (round totalRounds : Nat) (role : String) (cd : Nat)
  | countdown (room : String) (count : Int)
  | startAttacking (tgt : Option String) (duration : Nat) (round : Nat)
  | startDefending (tgt : Option String) (duration : Nat) (round : Nat)
  | roundTimer (room : String) (timeLeft : Int)
  | moveSent (tgt : Option String) (direction : String)
  | incomingMove (tgt : Option String) (direction : String) (reactionTime : Nat)
  | moveMissed (tgt : Option String) (direction : String)
  | opponentMissed (tgt : Option String) (direction : String)
  | moveResult (tgt : Option String) (expected detected : String) (correct : Bool)
      (reactionTime : Nat) (s1 s2 : Nat)
  | opponentResult (tgt : Option String) (expected detected : String) (correct : Bool)
      (reactionTime : Nat) (s1 s2 : Nat)
  | roundEnded (room : String) (round : Nat) (s1 s2 : Nat)
  | matchEnd (room : String) (s1 s2 : Nat) (winner : String)
  | rematchProposed (tgt : Option String)
  | rematchStarting (room : String)
  | opponentDisconnected (room : String)
  | inputCombination (tgt : Option String) (round : Nat)
  | waitingForCombination (tgt : Option String) (round : Nat)
  | combinationError (tgt : String) (message : String)
  | getReady (tgt : Option String) (round cd : Nat)
  | watchingOpponent (tgt : Option String) (round : Nat)
  | startGuessing (tgt : Option String) (duration round : Nat)
  | opponentGuessing (tgt : Option String) (duration : Nat)
  | roundResult (room : String) (round : Nat) (correctMoves : Nat) (s1 s2 : Nat)
  | rematchProposedBy (tgt : Option String) (by_ : String)
deriving DecidableEq

/-- Pending timer callbacks of the reactive variant.  Each constructor
records the data the JS closure captures (besides the aliased match object,
which the callbacks re-resolve through the registry). -/
inductive TimerCb where
  | countdownTick (code : String) (count : Int)
  | roundTick (code : String) (timeLeft : Int)
  | moveTO (code : String) (direction : String)
  | interRoundNext (code : String)
  | endMatchDelay (code : String)
  | rematchDelay (code : String)
deriving DecidableEq

/-- Server-side per-socket state (`socket.matchCode`, `socket.playerRole`). -/
structure Sock where
  matchCode : Option String
  playerRole : Option String
deriving DecidableEq

/-- Whole-server state of the reactive variant. -/
structure Sys where
  -- the JS `matches` Map (`matches` is a Lean keyword, hence the name)
  matchesMap : List (String × RMatch)
  pending : List (Nat × TimerCb)
  nextId : Nat
  sockets : List (String × Sock)
  log : List Ev
deriving DecidableEq

/-- `clearTimeout(h)` / `clearInterval(h)` for an optionally stored handle,
as in `if (match.roundTimer) clearInterval(match.roundTimer)`. -/
def remTimer (l : List (Nat × TimerCb)) : Option Nat → List (Nat × TimerCb)
  | none => l
  | some id => delEnt l id

/-- The fresh match object built by the reactive `createMatch` handler. -/
def newRMatch (sid code : String) : RMatch :=
  { code := code, player1 := sid, player2 := none,
    currentRound := 1, totalRounds := 4,
    scores1 := 0, scores2 := 0, state := "waiting",
    currentAttacker := none, currentDefender := none,
    roundTimer := none, currentMove := none, moveTimeout := none,
    rematch1 := false, rematch2 := false }

/-- `createMatch` handler (reactive variant).  The generated random code is
externalized as the `code` parameter. -/
def createMatchSys (s : Sys) (sid code : String) : Sys :=
  { s with
    matchesMap := setEnt s.matchesMap code (newRMatch sid code),
    sockets := setEnt s.sockets sid { matchCode := some code, playerRole := some "player1" },
    log := s.log ++ [Ev.matchCreated sid code] }

/-- `startRoundCountdown(matchCode)`: assigns attacker/defender by round
parity, enters `countdown`, emits the two `roundStart` notifications and
starts the 3-2-1-0 countdown interval. -/
def startRoundCountdownSys (s : Sys) (code : String) : Sys :=
  match lookupE s.matchesMap code with
  | none => s
  | some m =>
    let isOddRound := m.currentRound % 2 = 1
    let attacker := if isOddRound then some m.player1 else m.player2
    let defender := if isOddRound then m.player2 else some m.player1
    let m1 := { m with currentAttacker := attacker, currentDefender := defender,
                       state := "countdown" }
    { s with
      matchesMap := setEnt s.matchesMap code m1,
      pending := s.pending ++ [(s.nextId, TimerCb.countdownTick code 3)],
      nextId := s.nextId + 1,
      log := s.log ++
        [Ev.roundStart attacker m.currentRound m.totalRounds "attacker" 3,
         Ev.roundStart defender m.currentRound m.totalRounds "defender" 3] }

/-- `startRound(matchCode)`: enters `playing`, clears `currentMove`, emits
`startAttacking`/`startDefending` and starts the 30-second round interval,
whose handle is stored in `match.roundTimer`. -/
def startRoundSys (s : Sys) (code : String) : Sys :=
  match lookupE s.matchesMap code with
  | none => s
  | some m =>
    let m1 := { m with state := "playing", currentMove := none,
                       roundTimer := some s.nextId }
    { s with
      matchesMap := setEnt s.matchesMap code m1,
      pending := s.pending ++ [(s.nextId, TimerCb.roundTick code 30)],
      nextId := s.nextId + 1,
      log := s.log ++
        [Ev.startAttacking m.currentAttacker 30 m.currentRound,
         Ev.startDefending m.currentDefender 30 m.currentRound] }

/-- `joinMatch` handler (reactive variant): uppercases the supplied code,
rejects unknown codes and occupied slot B, otherwise fills slot B, emits
`matchStarted` and starts the first countdown. -/
def joinMatchAux (s : Sys) (sid code : String) : Sys :=
  match lookupE s.matchesMap code with
  | none => { s with log := s.log ++ [Ev.joinError sid "Match not found"] }
  | some m =>
    if truthyStr m.player2 then
      { s with log := s.log ++ [Ev.joinError sid "Match is full"] }
    else
      let m1 := { m with player2 := some sid }
      let s1 := { s with
        matchesMap := setEnt s.matchesMap code m1,
        sockets := setEnt s.sockets sid { matchCode := some code, playerRole := some "player2" },
        log := s.log ++ [Ev.matchStarted code m.player1 sid] }
      startRoundCountdownSys s1 code

/-- JS `String.prototype.toUpperCase` restricted to the ASCII strings the
server handles. -/
def jsToUpperCase (str : String) : String := ⟨str.data.map Char.toUpper⟩

/-- `joinMatch` entry point: `const code = matchCode.toUpperCase();`. -/
def joinMatchSys (s : Sys) (sid raw : String) : Sys :=
  joinMatchAux s sid (jsToUpperCase raw)

/-- `endMatch(matchCode)`: enters `matchEnd` and emits the final result
with the winner computed by strict score comparison. -/
def endMatchWinner (s1 s2 : Nat) : String :=
  if s1 > s2 then "player1" else if s2 > s1 then "player2" else "tie"

/-- `endMatch(matchCode)` body (runs from the 2-second post-round delay). -/
def endMatchSys (s : Sys) (code : String) : Sys :=
  match lookupE s.matchesMap code with
  | none => s
  | some m =>
    let m1 := { m with state := "matchEnd" }
    { s with
      matchesMap := setEnt s.matchesMap code m1,
      log := s.log ++ [Ev.matchEnd code m.scores1 m.scores2 (endMatchWinner m.scores1 m.scores2)] }

/-- `endRound(matchCode)`: clears the stored round interval and move
timeout, enters `roundEnd`, emits the round result, and schedules either
the match end (2 s) or the next-round increment (3 s).  Neither scheduled
timeout handle is stored anywhere. -/
def endRoundSys (s : Sys) (code : String) : Sys :=
  match lookupE s.matchesMap code with
  | none => s
  | some m =>
    let pending1 := remTimer (remTimer s.pending m.roundTimer) m.moveTimeout
    let m1 := { m with roundTimer := none, moveTimeout := none, state := "roundEnd" }
    let next :=
      if m.currentRound ≥ m.totalRounds then TimerCb.endMatchDelay code
      else TimerCb.interRoundNext code
    { s with
      matchesMap := setEnt s.matchesMap code m1,
      pending := pending1 ++ [(s.nextId, next)],
      nextId := s.nextId + 1,
      log := s.log ++ [Ev.roundEnded code m.currentRound m.scores1 m.scores2] }

/-- `attackMove` handler: guarded on `playing` state and the sender being
the current attacker; clears any existing move timeout, installs the new
`currentMove`, notifies both sides, and arms the 2000 ms reaction timeout. -/
def attackMoveSys (s : Sys) (sid move : String) (now : Nat) : Sys :=
  match lookupE s.sockets sid with
  | none => s
  | some sock =>
    match sock.matchCode with
    | none => s
    | some code =>
      match lookupE s.matchesMap code with
      | none => s
      | some m =>
        if ¬ m.state = "playing" then s
        else if ¬ m.currentAttacker = some sid then s
        else
          let pending1 := remTimer s.pending m.moveTimeout
          let m1 := { m with
            currentMove := some { direction := move, timestamp := now, responded := false },
            moveTimeout := some s.nextId }
          { s with
            matchesMap := setEnt s.matchesMap code m1,
            pending := pending1 ++ [(s.nextId, TimerCb.moveTO code move)],
            nextId := s.nextId + 1,
            log := s.log ++
              [Ev.incomingMove m.currentDefender move 2000,
               Ev.moveSent m.currentAttacker move] }

/-- `defendMove` handler: guarded on `playing`, the sender being the
current defender, and a still-unanswered `currentMove`; marks it responded,
scores the defender on an exact direction match, clears the reaction
timeout, notifies both sides and clears the move. -/
def defendMoveSys (s : Sys) (sid detected : String) (now : Nat) : Sys :=
  match lookupE s.sockets sid with
  | none => s
  | some sock =>
    match sock.matchCode with
    | none => s
    | some code =>
      match lookupE s.matchesMap code with
      | none => s
      | some m =>
        if ¬ m.state = "playing" then s
        else if ¬ m.currentDefender = some sid then s
        else
          match m.currentMove with
          | none => s
          | some mv =>
            if mv.responded then s
            else
              let isCorrect := detected = mv.direction
              let reactionTime := now - mv.timestamp
              let s1' := if isCorrect ∧ m.currentDefender = some m.player1
                         then m.scores1 + 1 else m.scores1
              let s2' := if isCorrect ∧ ¬ m.currentDefender = some m.player1
                         then m.scores2 + 1 else m.scores2
              let pending1 := remTimer s.pending m.moveTimeout
              let m1 := { m with scores1 := s1', scores2 := s2',
                                 currentMove := none, moveTimeout := none }
              { s with
                matchesMap := setEnt s.matchesMap code m1,
                pending := pending1,
                log := s.log ++
                  [Ev.moveResult m.currentDefender mv.direction detected isCorrect
                     reactionTime s1' s2',
                   Ev.opponentResult m.currentAttacker mv.direction detected isCorrect
                     reactionTime s1' s2'] }

/-- `proposeRematch` handler: only in `matchEnd`; records the proposer's
flag and notifies the other side; once both flags are set, resets round,
scores and flags, emits `rematchStarting` and schedules the restart (1 s). -/
def proposeRematchSys (s : Sys) (sid : String) : Sys :=
  match lookupE s.sockets sid with
  | none => s
  | some sock =>
    match sock.matchCode with
    | none => s
    | some code =>
      match lookupE s.matchesMap code with
      | none => s
      | some m =>
        if ¬ m.state = "matchEnd" then s
        else
          let m1 := if sock.playerRole = some "player1"
                    then { m with rematch1 := true } else { m with rematch2 := true }
          let ev1 := if sock.playerRole = some "player1"
                     then Ev.rematchProposed m.player2 else Ev.rematchProposed (some m.player1)
          if m1.rematch1 ∧ m1.rematch2 then
            let m2 := { m1 with currentRound := 1, scores1 := 0, scores2 := 0,
                                rematch1 := false, rematch2 := false }
            { s with
              matchesMap := setEnt s.matchesMap code m2,
              pending := s.pending ++ [(s.nextId, TimerCb.rematchDelay code)],
              nextId := s.nextId + 1,
              log := s.log ++ [ev1, Ev.rematchStarting code] }
          else
            { s with
              matchesMap := setEnt s.matchesMap code m1,
              log := s.log ++ [ev1] }

/-- `disconnect` handler: if the socket belonged to a live match, clears
the match's stored round interval and move timeout (and nothing else),
notifies the room and deletes the match. -/
def disconnectSys (s : Sys) (sid : String) : Sys :=
  match lookupE s.sockets sid with
  | none => s
  | some sock =>
    match sock.matchCode with
    | none => s
    | some code =>
      match lookupE s.matchesMap code with
      | none => s
      | some m =>
        { s with
          matchesMap := delEnt s.matchesMap code,
          pending := remTimer (remTimer s.pending m.roundTimer) m.moveTimeout,
          log := s.log ++ [Ev.opponentDisconnected code] }

/-- The body of one timer callback, given that the timer was due and has
been removed from the pending list (an interval re-inserts itself under
its original id). -/
def runCb (s : Sys) (id : Nat) : TimerCb → Sys
  | TimerCb.countdownTick code count =>
    let s1 := { s with log := s.log ++ [Ev.countdown code count] }
    let count1 := count - 1
    if count1 < 0 then startRoundSys s1 code
    else { s1 with pending := s1.pending ++ [(id, TimerCb.countdownTick code count1)] }
  | TimerCb.roundTick code timeLeft =>
    let t1 := timeLeft - 1
    let s1 := { s with
      log := s.log ++ [Ev.roundTimer code t1],
      pending := s.pending ++ [(id, TimerCb.roundTick code t1)] }
    if t1 ≤ 0 then endRoundSys s1 code else s1
  | TimerCb.moveTO code direction =>
    -- the closure tests `match.currentMove && !match.currentMove.responded`
    -- on the (aliased) match object
    match lookupE s.matchesMap code with
    | none => s
    | some m =>
      match m.currentMove with
      | none => s
      | some mv =>
        if mv.responded then s
        else
          { s with
            matchesMap := setEnt s.matchesMap code { m with currentMove := none },
            log := s.log ++
              [Ev.moveMissed m.currentDefender direction,
               Ev.opponentMissed m.currentAttacker direction] }
  | TimerCb.interRoundNext code =>
    -- `match.currentRound++; startRoundCountdown(matchCode)`; when the match
    -- was deleted the increment hits a dead object and nothing is observable
    match lookupE s.matchesMap code with
    | none => s
    | some m =>
      let s1 := { s with matchesMap := setEnt s.matchesMap code { m with currentRound := m.currentRound + 1 } }
      startRoundCountdownSys s1 code
  | TimerCb.endMatchDelay code => endMatchSys s code
  | TimerCb.rematchDelay code => startRoundCountdownSys s code

/-- Fire the pending timer with the given id (no-op when it was cancelled). -/
def fireTimerSys (s : Sys) (id : Nat) : Sys :=
  match lookupE s.pending id with
  | none => s
  | some cb => runCb { s with pending := delEnt s.pending id } id cb

/-- One externally triggered step of the reactive server: an inbound
socket event (with its oracle data: generated code, wall-clock time) or a
due timer firing. -/
inductive Act where
  | create (sid code : String)
  | join (sid raw : String)
  | attack (sid move : String) (now : Nat)
  | defend (sid detected : String) (now : Nat)
  | rematch (sid : String)
  | disc (sid : String)
  | fire (id : Nat)

/-- Dispatch one action. -/
def runAct (s : Sys) : Act → Sys
  | Act.create sid code => createMatchSys s sid code
  | Act.join sid raw => joinMatchSys s sid raw
  | Act.attack sid move now => attackMoveSys s sid move now
  | Act.defend sid detected now => defendMoveSys s sid detected now
  | Act.rematch sid => proposeRematchSys s sid
  | Act.disc sid => disconnectSys s sid
  | Act.fire id => fireTimerSys s id

/-- Run a sequence of actions. -/
def runActs (s : Sys) (l : List Act) : Sys := l.foldl runAct s

/-- The empty server state. -/
def sysInit : Sys :=
  { matchesMap := [], pending := [], nextId := 0, sockets := [], log := [] }

/-!
## Match-code generation

`generateMatchCode` is `Math.random().toString(36).substring(2, 8).toUpperCase()`.
We embed `Number.prototype.toString(36)` for the values `Math.random()` can
produce whose base-36 expansion is finite: the value `num / 36 ^ k` in
`[0, 1)` prints as `"0." ++ digits` with trailing zeros removed, and `0`
prints as `"0"`.
-/

/-- The character for one base-36 digit, as used by JS
`Number.prototype.toString(36)`: `0`-`9` then `a`-`z`. -/
def digit36 (d : Nat) : Char :=
  if d < 10 then Char.ofNat (48 + d) else Char.ofNat (87 + d)

/-- The `k` base-36 fraction digits of `num / 36 ^ k`, most significant
first. -/
def fracDigits36 : Nat → Nat → List Char
  | _, 0 => []
  | num, k + 1 => digit36 (num / 36 ^ k) :: fracDigits36 (num % 36 ^ k) k

/-- Remove trailing `'0'` digits, as JS does when printing a fraction. -/
def stripTrailingZeros (l : List Char) : List Char :=
  (l.reverse.dropWhile (fun c => c = '0')).reverse

/-- JS `x.toString(36)` for `x = num / 36 ^ k` in `[0, 1)` with a finite
base-36 expansion (`"0"` for zero, otherwise `"0." ++ digits`). -/
def jsToString36 (num k : Nat) : String :=
  if num = 0 then "0"
  else ⟨'0' :: '.' :: stripTrailingZeros (fracDigits36 num k)⟩

/-- JS `String.prototype.substring(a, b)`: the characters at indices
`[a, b)`. -/
def jsSubstring (str : String) (a b : Nat) : String :=
  ⟨(str.data.drop a).take (b - a)⟩

/-- `generateMatchCode()` with the random draw `num / 36 ^ k` made
explicit: `Math.random().toString(36).substring(2, 8).toUpperCase()`. -/
def generateMatchCode (num k : Nat) : String :=
  jsToUpperCase (jsSubstring (jsToString36 num k) 2 8)

/-!
## The set-then-guess (guessing) variant

Second server file: player 1 sets a 4-move combination, player 2 guesses
it after a countdown.  This variant stores no timer handles at all; its
`setInterval`/`setTimeout` callbacks are modelled by `GTimerCb`.
-/

/-- A match object of the guessing variant. -/
structure GMatch where
  code : String
  player1 : String
  player2 : Option String
  currentRound : Nat
  totalRounds : Nat
  scores1 : Nat
  scores2 : Nat
  combination : Option (List String)
  state : String
  rematch1 : Bool
  rematch2 : Bool
deriving DecidableEq

/-- Pending timer callbacks of the guessing variant. -/
inductive GTimerCb where
  | countdownTick (code : String) (count : Int)
  | nextRoundDelay (code : String)
  | rematchNotify (code : String)
deriving DecidableEq

/-- Whole-server state of the guessing variant. -/
structure GSys where
  matchesMap : List (String × GMatch)
  pending : List (Nat × GTimerCb)
  nextId : Nat
  sockets : List (String × Sock)
  log : List Ev
deriving DecidableEq

/-- The fresh match object built by the guessing `createMatch` handler
(`totalRounds: 3`, `combination: null`). -/
def newGMatch (sid code : String) : GMatch :=
  { code := code, player1 := sid, player2 := none,
    currentRound := 1, totalRounds := 3,
    scores1 := 0, scores2 := 0, combination := none, state := "waiting",
    rematch1 := false, rematch2 := false }

/-- Guessing-variant `createMatch` handler. -/
def createMatchG (s : GSys) (sid code : String) : GSys :=
  { s with
    matchesMap := setEnt s.matchesMap code (newGMatch sid code),
    sockets := setEnt s.sockets sid { matchCode := some code, playerRole := some "player1" },
    log := s.log ++ [Ev.matchCreated sid code] }

/-- Guessing-variant `joinMatch` handler: same join checks as the reactive
variant, then enters `inputting` and prompts player 1 for a combination. -/
def joinMatchG (s : GSys) (sid raw : String) : GSys :=
  let code := jsToUpperCase raw
  match lookupE s.matchesMap code with
  | none => { s with log := s.log ++ [Ev.joinError sid "Match not found"] }
  | some m =>
    if truthyStr m.player2 then
      { s with log := s.log ++ [Ev.joinError sid "Match is full"] }
    else
      let m1 := { m with player2 := some sid, state := "inputting" }
      { s with
        matchesMap := setEnt s.matchesMap code m1,
        sockets := setEnt s.sockets sid { matchCode := some code, playerRole := some "player2" },
        log := s.log ++
          [Ev.matchStarted code m.player1 sid,
           Ev.inputCombination (some m.player1) m.currentRound,
           Ev.waitingForCombination (some sid) m.currentRound] }

/-- `submitCombination` handler: only player 1; rejects combinations whose
length is not 4; stores the combination, enters `countdown`, notifies both
sides and starts the countdown interval. -/
def submitCombinationG (s : GSys) (sid : String) (combination : List String) : GSys :=
  match lookupE s.sockets sid with
  | none => s
  | some sock =>
    match sock.matchCode with
    | none => s
    | some code =>
      match lookupE s.matchesMap code with
      | none => s
      | some m =>
        if ¬ sock.playerRole = some "player1" then s
        else if ¬ combination.length = 4 then
          { s with log := s.log ++ [Ev.combinationError sid "Combination must have 4 moves"] }
        else
          let m1 := { m with combination := some combination, state := "countdown" }
          { s with
            matchesMap := setEnt s.matchesMap code m1,
            pending := s.pending ++ [(s.nextId, GTimerCb.countdownTick code 3)],
            nextId := s.nextId + 1,
            log := s.log ++
              [Ev.getReady m.player2 m.currentRound 3,
               Ev.watchingOpponent (some m.player1) m.currentRound] }

/-- The guessing-variant winner ternary in `submitGuess`:
`scores.player1 > scores.player2 ? 'player1' : scores.player2 > scores.player1 ? 'player2' : 'tie'`. -/
def gWinner (s1 s2 : Nat) : String :=
  if s1 > s2 then "player1" else if s2 > s1 then "player2" else "tie"

/-- One guess slot of the `submitGuess` loop:
`guessedMoves[i] === match.combination[i]` (strict equality; a missing
guess slot is `undefined`, modelled as `none`). -/
def guessCorrect (guessed expected : Option String) : Bool := guessed = expected

/-- `submitGuess` handler: only player 2; reads `match.combination[i]` for
`i = 0..3` — when no combination has been set this dereferences `null` and
the handler throws a `TypeError` (modelled as `Except.error`), which is an
uncaught exception.  Otherwise counts correct guesses, adds them to player
2's score, emits the round result, and either ends the match (emitting the
winner) or schedules the next round after 3 s. -/
def submitGuessG (s : GSys) (sid : String) (guessedMoves : List String) :
    Except String GSys :=
  match lookupE s.sockets sid with
  | none => Except.ok s
  | some sock =>
    match sock.matchCode with
    | none => Except.ok s
    | some code =>
      match lookupE s.matchesMap code with
      | none => Except.ok s
      | some m =>
        if ¬ sock.playerRole = some "player2" then Except.ok s
        else
          match m.combination with
          | none => Except.error "TypeError: Cannot read properties of null"
          | some combination =>
            let correctOf := fun i =>
              guessCorrect (guessedMoves.get? i) (combination.get? i)
            let correctMoves :=
              ((List.range 4).filter (fun i => correctOf i)).length
            let s2' := m.scores2 + correctMoves
            let m1 := { m with scores2 := s2', state := "roundEnd" }
            let s1 := { s with
              matchesMap := setEnt s.matchesMap code m1,
              log := s.log ++
                [Ev.roundResult code m.currentRound correctMoves m.scores1 s2'] }
            if m.currentRound ≥ m.totalRounds then
              let m2 := { m1 with state := "matchEnd" }
              Except.ok { s1 with
                matchesMap := setEnt s1.matchesMap code m2,
                log := s1.log ++
                  [Ev.matchEnd code m.scores1 s2' (gWinner m.scores1 s2')] }
            else
              Except.ok { s1 with
                pending := s1.pending ++ [(s1.nextId, GTimerCb.nextRoundDelay code)],
                nextId := s1.nextId + 1 }

/-- Guessing-variant `proposeRematch` handler: only in `matchEnd`; records
the flag and notifies the other side (with a `by` field); when both flags
are set, resets round/scores/combination/flags, enters `inputting`, emits
`rematchStarting` and schedules the round prompts after 1 s. -/
def proposeRematchG (s : GSys) (sid : String) : GSys :=
  match lookupE s.sockets sid with
  | none => s
  | some sock =>
    match sock.matchCode with
    | none => s
    | some code =>
      match lookupE s.matchesMap code with
      | none => s
      | some m =>
        if ¬ m.state = "matchEnd" then s
        else
          let m1 := if sock.playerRole = some "player1"
                    then { m with rematch1 := true } else { m with rematch2 := true }
          let ev1 := if sock.playerRole = some "player1"
                     then Ev.rematchProposedBy m.player2 "player1"
                     else Ev.rematchProposedBy (some m.player1) "player2"
          if m1.rematch1 ∧ m1.rematch2 then
            let m2 := { m1 with currentRound := 1, scores1 := 0, scores2 := 0,
                                combination := none, rematch1 := false, rematch2 := false,
                                state := "inputting" }
            { s with
              matchesMap := setEnt s.matchesMap code m2,
              pending := s.pending ++ [(s.nextId, GTimerCb.rematchNotify code)],
              nextId := s.nextId + 1,
              log := s.log ++ [ev1, Ev.rematchStarting code] }
          else
            { s with
              matchesMap := setEnt s.matchesMap code m1,
              log := s.log ++ [ev1] }

/-- Guessing-variant `disconnect` handler: deletes the match and notifies
the room; nothing else (this variant stores no timer handles). -/
def disconnectG (s : GSys) (sid : String) : GSys :=
  match lookupE s.sockets sid with
  | none => s
  | some sock =>
    match sock.matchCode with
    | none => s
    | some code =>
      match lookupE s.matchesMap code with
      | none => s
      | some _ =>
        { s with
          matchesMap := delEnt s.matchesMap code,
          log := s.log ++ [Ev.opponentDisconnected code] }

/-- One guessing-variant timer callback body (timer already removed from
the pending list). -/
def runCbG (s : GSys) (id : Nat) : GTimerCb → GSys
  | GTimerCb.countdownTick code count =>
    let s1 := { s with log := s.log ++ [Ev.countdown code count] }
    let count1 := count - 1
    if count1 < 0 then
      -- `match.state = 'guessing'` plus the start notifications; the JS
      -- closure holds an alias of the registry entry, re-resolved here
      match lookupE s1.matchesMap code with
      | none => s1
      | some m =>
        { s1 with
          matchesMap := setEnt s1.matchesMap code { m with state := "guessing" },
          log := s1.log ++
            [Ev.startGuessing m.player2 8 m.currentRound,
             Ev.opponentGuessing (some m.player1) 8] }
    else { s1 with pending := s1.pending ++ [(id, GTimerCb.countdownTick code count1)] }
  | GTimerCb.nextRoundDelay code =>
    match lookupE s.matchesMap code with
    | none => s
    | some m =>
      let m1 := { m with currentRound := m.currentRound + 1, combination := none,
                         state := "inputting" }
      { s with
        matchesMap := setEnt s.matchesMap code m1,
        log := s.log ++
          [Ev.inputCombination (some m.player1) m1.currentRound,
           Ev.waitingForCombination m.player2 m1.currentRound] }
  | GTimerCb.rematchNotify code =>
    match lookupE s.matchesMap code with
    | none => s
    | some m =>
      { s with log := s.log ++
          [Ev.inputCombination (some m.player1) m.currentRound,
           Ev.waitingForCombination m.player2 m.currentRound] }

/-- Fire a pending guessing-variant timer. -/
def fireTimerG (s : GSys) (id : Nat) : GSys :=
  match lookupE s.pending id with
  | none => s
  | some cb => runCbG { s with pending := delEnt s.pending id } id cb

/-- Guessing-variant actions. -/
inductive GAct where
  | create (sid code : String)
  | join (sid raw : String)
  | combination (sid : String) (combination : List String)
  | guess (sid : String) (guessedMoves : List String)
  | rematch (sid : String)
  | disc (sid : String)
  | fire (id : Nat)

/-- Dispatch one guessing-variant action; `none` means the handler threw
an uncaught exception (the process crashes, so there is no next state). -/
def runActG (s : GSys) : GAct → Option GSys
  | GAct.create sid code => some (createMatchG s sid code)
  | GAct.join sid raw => some (joinMatchG s sid raw)
  | GAct.combination sid combination => some (submitCombinationG s sid combination)
  | GAct.guess sid guessedMoves =>
    match submitGuessG s sid guessedMoves with
    | Except.ok s1 => some s1
    | Except.error _ => none
  | GAct.rematch sid => some (proposeRematchG s sid)
  | GAct.disc sid => some (disconnectG s sid)
  | GAct.fire id => some (fireTimerG s id)

/-- The empty guessing-variant server state. -/
def gsysInit : GSys :=
  { matchesMap := [], pending := [], nextId := 0, sockets := [], log := [] }

/-- Reachable states of the guessing-variant server. -/
inductive GReach : GSys → Prop
  | init : GReach gsysInit
  | step {s s1 : GSys} {a : GAct} : GReach s → runActG s a = some s1 → GReach s1

/-!
## Helper lemmas about the association-list registry
-/

theorem lookupE_setEnt_self {κ α : Type} [DecidableEq κ] (l : List (κ × α)) (k : κ) (v : α) :
    lookupE (setEnt l k v) k = some v := by
  simp [setEnt, lookupE]

theorem lookupE_delEnt {κ α : Type} [DecidableEq κ] (l : List (κ × α)) (k k' : κ) :
    lookupE (delEnt l k') k = if k = k' then none else lookupE l k := by
  induction l with
  | nil => simp [delEnt, lookupE]
  | cons p rest ih =>
    simp only [delEnt, List.filter_cons, decide_not] at ih ⊢
    by_cases h1 : p.1 = k'
    · rw [show (!decide (p.1 = k')) = false by simp [h1]]
      simp only [Bool.false_eq_true, if_false]
      rw [ih]
      by_cases h2 : k = k'
      · simp [h2]
      · have h3 : ¬ p.1 = k := by rw [h1]; intro hc; exact h2 hc.symm
        simp [lookupE, h2, h3]
    · rw [show (!decide (p.1 = k')) = true by simp [h1]]
      simp only [if_true]
      by_cases h2 : p.1 = k
      · have h4 : ¬ k = k' := by rw [← h2]; exact h1
        simp [lookupE, h2, h4]
      · simp [lookupE, h2, ih]

theorem lookupE_append {κ α : Type} [DecidableEq κ] (l1 l2 : List (κ × α)) (k : κ) :
    lookupE (l1 ++ l2) k =
      match lookupE l1 k with
      | some v => some v
      | none => lookupE l2 k := by
  induction l1 with
  | nil => simp [lookupE]
  | cons p rest ih => by_cases h : p.1 = k <;> simp [lookupE, h, ih]

theorem lookupE_remTimer (l : List (Nat × TimerCb)) (o : Option Nat) (k : Nat) :
    lookupE (remTimer l o) k = if o = some k then none else lookupE l k := by
  cases o with
  | none => simp [remTimer]
  | some id =>
    by_cases h : id = k <;>
      simp [remTimer, lookupE_delEnt, h, eq_comm]

/-- Claim C2: for final scores `(score1, score2)`, `endMatch` reports
winner `player1` iff `score1 > score2`, `player2` iff `score2 > score1`,
and `tie` iff the scores are equal; the guessing-variant `submitGuess`
ternary computes the same winner; in particular `(3,1)` yields `player1`,
`(2,2)` yields `tie` and `(0,4)` yields `player2`.  `endMatch` transitions
the match to `matchEnd` and emits the final result. -/
theorem endMatch_winner_spec :
    (∀ a b : Nat,
      (endMatchWinner a b = "player1" ↔ a > b) ∧
      (endMatchWinner a b = "player2" ↔ b > a) ∧
      (endMatchWinner a b = "tie" ↔ a = b) ∧
      gWinner a b = endMatchWinner a b) ∧
    (endMatchWinner 3 1 = "player1" ∧ endMatchWinner 2 2 = "tie" ∧
      endMatchWinner 0 4 = "player2" ∧ gWinner 3 1 = "player1" ∧
      gWinner 2 2 = "tie" ∧ gWinner 0 4 = "player2") ∧
    (∀ (s : Sys) (code : String) (m : RMatch),
      lookupE s.matchesMap code = some m →
      (endMatchSys s code).log = s.log ++
        [Ev.matchEnd code m.scores1 m.scores2 (endMatchWinner m.scores1 m.scores2)] ∧
      lookupE (endMatchSys s code).matchesMap code = some { m with state := "matchEnd" }) := by
  refine ⟨fun a b => ?_, by decide, fun s code m hm => ?_⟩
  · unfold endMatchWinner gWinner
    by_cases h1 : a > b
    · simp only [if_pos h1]
      refine ⟨⟨fun _ => h1, fun _ => trivial⟩,
        ⟨fun hc => absurd hc (by decide), fun hg => absurd h1 (by omega)⟩,
        ⟨fun hc => absurd hc (by decide), fun he => absurd h1 (by omega)⟩, by trivial⟩
    · by_cases h2 : b > a
      · simp only [if_neg h1, if_pos h2]
        refine ⟨⟨fun hc => absurd hc (by decide), fun hg => absurd hg h1⟩,
          ⟨fun _ => h2, fun _ => trivial⟩,
          ⟨fun hc => absurd hc (by decide), fun he => absurd h2 (by omega)⟩, by trivial⟩
      · simp only [if_neg h1, if_neg h2]
        refine ⟨⟨fun hc => absurd hc (by decide), fun hg => absurd hg h1⟩,
          ⟨fun hc => absurd hc (by decide), fun hg => absurd hg h2⟩,
          ⟨fun _ => by omega, fun _ => trivial⟩, by trivial⟩
  · simp [endMatchSys, hm, lookupE_setEnt_self]

/-- Witness for C2: the implication conjunct applied to a concrete
one-match registry. -/
theorem endMatch_winner_spec_witness :
    (endMatchSys
        { matchesMap := [("AAAAAA", { newRMatch "s1" "AAAAAA" with scores1 := 3, scores2 := 1 })],
          pending := [], nextId := 0, sockets := [], log := [] } "AAAAAA").log =
      [Ev.matchEnd "AAAAAA" 3 1 "player1"] :=
  (endMatch_winner_spec.2.2
    { matchesMap := [("AAAAAA", { newRMatch "s1" "AAAAAA" with scores1 := 3, scores2 := 1 })],
      pending := [], nextId := 0, sockets := [], log := [] } "AAAAAA"
    { newRMatch "s1" "AAAAAA" with scores1 := 3, scores2 := 1 } (by decide)).1

/-- Counterexample for C4: `Math.random()` can return `0`, whose base-36
string is `"0"`, so `generateMatchCode` can return the empty string rather
than 6 characters; and `createMatch` stores the generated code with a bare
`matches.set` — creating a second match under a code that is already live
silently overwrites the live match and still reports success, instead of
rejecting or regenerating. -/
theorem generateMatchCode_claim_false :
    generateMatchCode 0 0 = "" ∧ ("" : String).length ≠ 6 ∧
    lookupE (createMatchSys sysInit "s1" "ABC123").matchesMap "ABC123" =
      some (newRMatch "s1" "ABC123") ∧
    lookupE (createMatchSys (createMatchSys sysInit "s1" "ABC123") "s2" "ABC123").matchesMap
      "ABC123" = some (newRMatch "s2" "ABC123") ∧
    (createMatchSys (createMatchSys sysInit "s1" "ABC123") "s2" "ABC123").log =
      [Ev.matchCreated "s1" "ABC123", Ev.matchCreated "s2" "ABC123"] := by
  refine ⟨by decide, by decide, by decide, by decide, by decide⟩

/-- Claim C4, amended: every generated code is the uppercased
`substring(2, 8)` of the random draw's base-36 string, hence at most (not
exactly) 6 characters; `createMatch` stores the new match under that code
unconditionally, overwriting any live match with the same code (no
rejection or regeneration on collision); `joinMatch` does normalize the
supplied code to uppercase before the registry lookup. -/
theorem generateMatchCode_spec :
    (∀ num k : Nat, (generateMatchCode num k).length ≤ 6) ∧
    (∀ (s : Sys) (sid code : String),
      lookupE (createMatchSys s sid code).matchesMap code = some (newRMatch sid code)) ∧
    (∀ (s : Sys) (sid raw : String),
      joinMatchSys s sid raw = joinMatchAux s sid (jsToUpperCase raw)) := by
  refine ⟨fun num k => ?_, fun s sid code => ?_, fun s sid raw => rfl⟩
  · show (jsToUpperCase (jsSubstring (jsToString36 num k) 2 8)).length ≤ 6
    have hlen : ∀ str : String, (jsToUpperCase str).length = str.length := by
      intro str
      show (String.mk (str.data.map Char.toUpper)).length = str.length
      rw [show (String.mk (str.data.map Char.toUpper)).length =
            (str.data.map Char.toUpper).length from rfl]
      rw [List.length_map]
      rfl
    rw [hlen]
    show ((((jsToString36 num k).data.drop 2).take (8 - 2)) : List Char).length ≤ 6
    calc (((jsToString36 num k).data.drop 2).take (8 - 2)).length ≤ 8 - 2 :=
          List.length_take_le _ _
      _ ≤ 6 := by omega
  · simp [createMatchSys, lookupE_setEnt_self]

/-- Claim C6: evaluation of the code at the failing input.  In the
guessing variant, after create and join (match state `inputting`,
`match.combination` still `null`), a `submitGuess` from player 2 passes
the handler's only guards (`!match || socket.playerRole !== 'player2'`)
and then reads `match.combination[i]`, throwing an uncaught `TypeError` —
the event is not silently ignored and the process crashes, contradicting
the claim. -/
theorem submitGuess_null_combination_throws :
    submitGuessG (joinMatchG (createMatchG gsysInit "s1" "AAAAAA") "s2" "AAAAAA")
        "s2" ["up", "up", "up", "up"] =
      Except.error "TypeError: Cannot read properties of null" ∧
    runActG (joinMatchG (createMatchG gsysInit "s1" "AAAAAA") "s2" "AAAAAA")
        (GAct.guess "s2" ["up", "up", "up", "up"]) = none := by
  exact ⟨rfl, rfl⟩

/-- The state after create, join (lowercase code) and a disconnect during
the first countdown. -/
def c3cexSys : Sys :=
  runActs sysInit [Act.create "s1" "AAAAAA", Act.join "s2" "aaaaaa", Act.disc "s1"]

/-- Counterexample for C3: disconnect during the first countdown.  The
`disconnect` handler only clears `match.roundTimer` and `match.moveTimeout`;
the countdown interval's handle is a local variable of
`startRoundCountdown`, so after the disconnect it is still pending, and its
next tick still emits a `countdown` notification for the deleted match's
code (the remaining participant is still in that room) — so neither "all
of that match's pending timers are cancelled" nor "no further notification
for that match code is ever emitted" holds. -/
theorem disconnect_claim_false :
    c3cexSys.matchesMap = [] ∧
    c3cexSys.log = [Ev.matchCreated "s1" "AAAAAA", Ev.matchStarted "AAAAAA" "s1" "s2",
      Ev.roundStart (some "s1") 1 4 "attacker" 3,
      Ev.roundStart (some "s2") 1 4 "defender" 3,
      Ev.opponentDisconnected "AAAAAA"] ∧
    c3cexSys.pending = [(0, TimerCb.countdownTick "AAAAAA" 3)] ∧
    (runAct c3cexSys (Act.fire 0)).log = c3cexSys.log ++ [Ev.countdown "AAAAAA" 3] := by
  refine ⟨by decide, by decide, by decide, by decide⟩

/-- Claim C3, amended: when a participant of a live match disconnects
(in any state), the match is deleted from the registry, the match's two
stored timers (`roundTimer`, `moveTimeout`) are cancelled, and the
remaining participant is notified; however an in-flight countdown interval
and the anonymous inter-round / match-end / rematch `setTimeout`s are not
cancelled — the delayed state-changing callbacks are no-ops thanks to the
registry-absence check, but a surviving countdown interval still emits
`countdown` notifications for the deleted match's code. -/
theorem disconnect_teardown (s : Sys) (sid code : String) (sock : Sock) (m : RMatch)
    (hsock : lookupE s.sockets sid = some sock) (hmc : sock.matchCode = some code)
    (hm : lookupE s.matchesMap code = some m) :
    lookupE (disconnectSys s sid).matchesMap code = none ∧
    (disconnectSys s sid).log = s.log ++ [Ev.opponentDisconnected code] ∧
    (∀ id, m.roundTimer = some id → lookupE (disconnectSys s sid).pending id = none) ∧
    (∀ id, m.moveTimeout = some id → lookupE (disconnectSys s sid).pending id = none) ∧
    (∀ s2, lookupE s2.matchesMap code = none →
      startRoundCountdownSys s2 code = s2 ∧ startRoundSys s2 code = s2 ∧
      endRoundSys s2 code = s2 ∧ endMatchSys s2 code = s2 ∧
      (∀ i, runCb s2 i (TimerCb.interRoundNext code) = s2) ∧
      (∀ i cnt, runCb s2 i (TimerCb.countdownTick code cnt) =
        if cnt - 1 < 0 then { s2 with log := s2.log ++ [Ev.countdown code cnt] }
        else { s2 with log := s2.log ++ [Ev.countdown code cnt],
                       pending := s2.pending ++ [(i, TimerCb.countdownTick code (cnt - 1))] })) := by
  have hd : disconnectSys s sid =
      { s with matchesMap := delEnt s.matchesMap code,
               pending := remTimer (remTimer s.pending m.roundTimer) m.moveTimeout,
               log := s.log ++ [Ev.opponentDisconnected code] } := by
    simp [disconnectSys, hsock, hmc, hm]
  refine ⟨?_, ?_, ?_, ?_, ?_⟩
  · rw [hd]; simp [lookupE_delEnt]
  · rw [hd]
  · intro id hid
    rw [hd]
    show lookupE (remTimer (remTimer s.pending m.roundTimer) m.moveTimeout) id = none
    rw [lookupE_remTimer, lookupE_remTimer, hid]
    by_cases h2 : m.moveTimeout = some id <;> simp [h2]
  · intro id hid
    rw [hd]
    show lookupE (remTimer (remTimer s.pending m.roundTimer) m.moveTimeout) id = none
    rw [lookupE_remTimer, hid]
    simp
  · intro s2 h2
    refine ⟨by simp [startRoundCountdownSys, h2], by simp [startRoundSys, h2],
      by simp [endRoundSys, h2], by simp [endMatchSys, h2],
      fun i => by simp [runCb, h2], fun i cnt => ?_⟩
    by_cases hc : cnt - 1 < 0 <;>
      simp [runCb, h2, hc, startRoundSys]

/-- Concrete match fixture for the C3 witness: `playing`, with a stored
round timer (id 1) and move timeout (id 2). -/
def c3wMatch : RMatch :=
  { newRMatch "s1" "AAAAAA" with
    player2 := some "s2", state := "playing",
    roundTimer := some 1, moveTimeout := some 2 }

/-- Concrete system fixture for the C3 witness. -/
def c3wSys : Sys :=
  { matchesMap := [("AAAAAA", c3wMatch)],
    pending := [(1, TimerCb.roundTick "AAAAAA" 12), (2, TimerCb.moveTO "AAAAAA" "up")],
    nextId := 3,
    sockets := [("s1", { matchCode := some "AAAAAA", playerRole := some "player1" })],
    log := [] }

/-- Witness for C3's amended theorem: a concrete one-match system in the
`playing` state with a stored round timer and move timeout. -/
theorem disconnect_teardown_witness :
    lookupE (disconnectSys c3wSys "s1").matchesMap "AAAAAA" = none ∧
    (disconnectSys c3wSys "s1").log = [Ev.opponentDisconnected "AAAAAA"] ∧
    lookupE (disconnectSys c3wSys "s1").pending 1 = none ∧
    lookupE (disconnectSys c3wSys "s1").pending 2 = none := by
  have h := disconnect_teardown c3wSys "s1" "AAAAAA"
    { matchCode := some "AAAAAA", playerRole := some "player1" }
    c3wMatch (by decide) rfl (by decide)
  exact ⟨h.1, h.2.1, h.2.2.1 1 rfl, h.2.2.2.1 2 rfl⟩

/-- The action prefix for the C5 counterexample: create, join, run the
countdown (ticks 3,2,1,0 — the last tick starts the round), then the
attacker sends `up`. -/
def c5acts : List Act :=
  [Act.create "s1" "AAAAAA", Act.join "s2" "AAAAAA",
   Act.fire 0, Act.fire 0, Act.fire 0, Act.fire 0,
   Act.attack "s1" "up" 100]

/-- Counterexample for C5: with the first move still pending (delivered at
t = 100, unanswered, not timed out), a second `attackMove` from the same
attacker is accepted: the handler only checks the state and the sender,
never whether `currentMove` is null/resolved, so a new Move is created
while the prior Move is still pending (the prior move is silently
discarded, resolved by nobody). -/
theorem attackMove_claim_false :
    (lookupE (runActs sysInit c5acts).matchesMap "AAAAAA").map
        (fun m => (m.state, m.currentMove)) =
      some ("playing", some { direction := "up", timestamp := 100, responded := false }) ∧
    (lookupE (runAct (runActs sysInit c5acts) (Act.attack "s1" "down" 200)).matchesMap
        "AAAAAA").map (fun m => m.currentMove) =
      some (some { direction := "down", timestamp := 200, responded := false }) ∧
    (runAct (runActs sysInit c5acts) (Act.attack "s1" "down" 200)).log =
      (runActs sysInit c5acts).log ++
        [Ev.incomingMove (some "s2") "down" 2000, Ev.moveSent (some "s1") "down"] := by
  refine ⟨by decide, by decide, by decide⟩

/-- Claim C5, amended: the single nullable `currentMove` field means at
most one live Move exists per match at any time, but `attackMove` does not
wait for the previous Move to be resolved: whenever the match is `playing`
and the sender is the current attacker — even while a prior Move is still
pending — it cancels the prior move's reaction timeout and overwrites
`currentMove` with the new Move. -/
theorem attackMove_replaces (s : Sys) (sid code move : String) (sock : Sock)
    (m : RMatch) (mv : Move) (now : Nat)
    (hsock : lookupE s.sockets sid = some sock) (hmc : sock.matchCode = some code)
    (hm : lookupE s.matchesMap code = some m)
    (hst : m.state = "playing") (hatt : m.currentAttacker = some sid)
    (hmv : m.currentMove = some mv) (hr : mv.responded = false) :
    (∀ x : RMatch, x.currentMove = none ∨ ∃ y, x.currentMove = some y) ∧
    lookupE (attackMoveSys s sid move now).matchesMap code =
      some { m with
             currentMove := some { direction := move, timestamp := now, responded := false },
             moveTimeout := some s.nextId } ∧
    (attackMoveSys s sid move now).pending =
      remTimer s.pending m.moveTimeout ++ [(s.nextId, TimerCb.moveTO code move)] ∧
    (attackMoveSys s sid move now).log = s.log ++
      [Ev.incomingMove m.currentDefender move 2000, Ev.moveSent m.currentAttacker move] := by
  have ha : attackMoveSys s sid move now =
      { s with
        matchesMap := setEnt s.matchesMap code
          { m with
            currentMove := some { direction := move, timestamp := now, responded := false },
            moveTimeout := some s.nextId },
        pending := remTimer s.pending m.moveTimeout ++ [(s.nextId, TimerCb.moveTO code move)],
        nextId := s.nextId + 1,
        log := s.log ++
          [Ev.incomingMove m.currentDefender move 2000, Ev.moveSent m.currentAttacker move] } := by
    simp [attackMoveSys, hsock, hmc, hm, hst, hatt]
  refine ⟨fun x => ?_, ?_, ?_, ?_⟩
  · cases hx : x.currentMove with
    | none => exact Or.inl rfl
    | some y => exact Or.inr ⟨y, rfl⟩
  · rw [ha]; exact lookupE_setEnt_self _ _ _
  · rw [ha]
  · rw [ha]

/-- Witness for C5's amended theorem: the concrete pending-move system of
the counterexample trace. -/
theorem attackMove_replaces_witness :
    lookupE (attackMoveSys (runActs sysInit c5acts) "s1" "down" 200).matchesMap "AAAAAA" =
      some { (Option.getD (lookupE (runActs sysInit c5acts).matchesMap "AAAAAA")
               (newRMatch "s1" "AAAAAA")) with
             currentMove := some { direction := "down", timestamp := 200, responded := false },
             moveTimeout := some (runActs sysInit c5acts).nextId } := by
  have h := attackMove_replaces (runActs sysInit c5acts) "s1" "AAAAAA" "down"
    { matchCode := some "AAAAAA", playerRole := some "player1" }
    (Option.getD (lookupE (runActs sysInit c5acts).matchesMap "AAAAAA") (newRMatch "s1" "AAAAAA"))
    { direction := "up", timestamp := 100, responded := false } 200
    (by decide) rfl (by decide) (by decide) (by decide) (by decide) rfl
  exact h.2.1

/-- Claim C1: for an in-flight Move of a `playing` match (pending,
unanswered), the defender's `defendMove` and the 2000 ms reaction-timeout
callback are mutually exclusive.  Whichever runs first emits exactly its
outcome pair (`moveResult`/`opponentResult`, resp. `moveMissed`/
`opponentMissed`) and nulls `currentMove`; the other one then emits
nothing and changes nothing, because both check the responded flag /
`currentMove` before acting (in the response-first order the handler has
additionally already called `clearTimeout`, removing the pending timeout
altogether).  The timeout never changes scores, and the response awards at
most one point, so at most one of the two can score. -/
theorem defend_timeout_exclusive (s : Sys) (sid code detected dir : String)
    (sock : Sock) (m : RMatch) (mv : Move) (now tid : Nat)
    (hsock : lookupE s.sockets sid = some sock) (hmc : sock.matchCode = some code)
    (hm : lookupE s.matchesMap code = some m)
    (hst : m.state = "playing") (hd : m.currentDefender = some sid)
    (hmv : m.currentMove = some mv) (hr : mv.responded = false) :
    -- response first: the outcome pair is emitted and the move is cleared,
    (defendMoveSys s sid detected now).log = s.log ++
      [Ev.moveResult m.currentDefender mv.direction detected (detected = mv.direction)
         (now - mv.timestamp)
         (if detected = mv.direction ∧ m.currentDefender = some m.player1
          then m.scores1 + 1 else m.scores1)
         (if detected = mv.direction ∧ ¬ m.currentDefender = some m.player1
          then m.scores2 + 1 else m.scores2),
       Ev.opponentResult m.currentAttacker mv.direction detected (detected = mv.direction)
         (now - mv.timestamp)
         (if detected = mv.direction ∧ m.currentDefender = some m.player1
          then m.scores1 + 1 else m.scores1)
         (if detected = mv.direction ∧ ¬ m.currentDefender = some m.player1
          then m.scores2 + 1 else m.scores2)] ∧
    (lookupE (defendMoveSys s sid detected now).matchesMap code).map
        (fun x => x.currentMove) = some none ∧
    -- the pending reaction timeout was cleared by the response,
    (∀ id, m.moveTimeout = some id →
      lookupE (defendMoveSys s sid detected now).pending id = none) ∧
    -- and even if the timeout callback still ran it would be a no-op:
    runCb (defendMoveSys s sid detected now) tid (TimerCb.moveTO code dir) =
      defendMoveSys s sid detected now ∧
    -- timeout first: the missed pair is emitted and the move is cleared,
    (runCb s tid (TimerCb.moveTO code dir)).log = s.log ++
      [Ev.moveMissed m.currentDefender dir, Ev.opponentMissed m.currentAttacker dir] ∧
    (lookupE (runCb s tid (TimerCb.moveTO code dir)).matchesMap code).map
        (fun x => x.currentMove) = some none ∧
    -- the timeout awards no points,
    (lookupE (runCb s tid (TimerCb.moveTO code dir)).matchesMap code).map
        (fun x => (x.scores1, x.scores2)) = some (m.scores1, m.scores2) ∧
    -- a response after the timeout is then a no-op (no notification, no change),
    defendMoveSys (runCb s tid (TimerCb.moveTO code dir)) sid detected now =
      runCb s tid (TimerCb.moveTO code dir) ∧
    -- and the response awards at most one point in total:
    (∀ m1, lookupE (defendMoveSys s sid detected now).matchesMap code = some m1 →
      m1.scores1 + m1.scores2 ≤ m.scores1 + m.scores2 + 1) := by
  have hdef : defendMoveSys s sid detected now =
      { s with
        matchesMap := setEnt s.matchesMap code
          { m with
            scores1 := if detected = mv.direction ∧ m.currentDefender = some m.player1
                       then m.scores1 + 1 else m.scores1,
            scores2 := if detected = mv.direction ∧ ¬ m.currentDefender = some m.player1
                       then m.scores2 + 1 else m.scores2,
            currentMove := none, moveTimeout := none },
        pending := remTimer s.pending m.moveTimeout,
        log := s.log ++
          [Ev.moveResult m.currentDefender mv.direction detected (detected = mv.direction)
             (now - mv.timestamp)
             (if detected = mv.direction ∧ m.currentDefender = some m.player1
              then m.scores1 + 1 else m.scores1)
             (if detected = mv.direction ∧ ¬ m.currentDefender = some m.player1
              then m.scores2 + 1 else m.scores2),
           Ev.opponentResult m.currentAttacker mv.direction detected (detected = mv.direction)
             (now - mv.timestamp)
             (if detected = mv.direction ∧ m.currentDefender = some m.player1
              then m.scores1 + 1 else m.scores1)
             (if detected = mv.direction ∧ ¬ m.currentDefender = some m.player1
              then m.scores2 + 1 else m.scores2)] } := by
    simp [defendMoveSys, hsock, hmc, hm, hst, hd, hmv, hr]
  have hto : runCb s tid (TimerCb.moveTO code dir) =
      { s with
        matchesMap := setEnt s.matchesMap code { m with currentMove := none },
        log := s.log ++
          [Ev.moveMissed m.currentDefender dir, Ev.opponentMissed m.currentAttacker dir] } := by
    simp [runCb, hm, hmv, hr]
  refine ⟨?_, ?_, ?_, ?_, ?_, ?_, ?_, ?_, ?_⟩
  · rw [hdef]
  · rw [hdef]; rw [lookupE_setEnt_self]; rfl
  · intro id hid
    rw [hdef]
    show lookupE (remTimer s.pending m.moveTimeout) id = none
    rw [lookupE_remTimer, hid]
    simp
  · rw [hdef]
    simp [runCb, lookupE_setEnt_self]
  · rw [hto]
  · rw [hto, lookupE_setEnt_self]; rfl
  · rw [hto, lookupE_setEnt_self]; rfl
  · rw [hto]
    simp [defendMoveSys, hsock, hmc, lookupE_setEnt_self, hst, hd]
  · intro m1 hm1
    rw [hdef, lookupE_setEnt_self] at hm1
    cases hm1
    by_cases h1 : detected = mv.direction ∧ m.currentDefender = some m.player1 <;>
      by_cases h2 : detected = mv.direction ∧ ¬ m.currentDefender = some m.player1 <;>
      simp [h1, h2] <;> omega

/-- Concrete fixture for the C1 witness: a `playing` match with a pending,
unanswered move `up` delivered at t = 100 and its reaction timeout (id 2)
pending. -/
def c1wMatch : RMatch :=
  { newRMatch "s1" "AAAAAA" with
    player2 := some "s2", state := "playing",
    currentAttacker := some "s1", currentDefender := some "s2",
    roundTimer := some 1, moveTimeout := some 2,
    currentMove := some { direction := "up", timestamp := 100, responded := false } }

/-- Concrete system fixture for the C1 witness. -/
def c1wSys : Sys :=
  { matchesMap := [("AAAAAA", c1wMatch)],
    pending := [(1, TimerCb.roundTick "AAAAAA" 12), (2, TimerCb.moveTO "AAAAAA" "up")],
    nextId := 3,
    sockets := [("s2", { matchCode := some "AAAAAA", playerRole := some "player2" })],
    log := [] }

/-- Witness for C1: at the concrete fixture, a correct response at
t = 1500 emits exactly the outcome pair, and a timeout firing afterwards
is a complete no-op; in the other order the timeout emits exactly the
missed pair and the late response is a complete no-op. -/
theorem defend_timeout_exclusive_witness :
    (defendMoveSys c1wSys "s2" "up" 1500).log =
      [Ev.moveResult (some "s2") "up" "up" true 1400 0 1,
       Ev.opponentResult (some "s1") "up" "up" true 1400 0 1] ∧
    runCb (defendMoveSys c1wSys "s2" "up" 1500) 2 (TimerCb.moveTO "AAAAAA" "up") =
      defendMoveSys c1wSys "s2" "up" 1500 ∧
    (runCb c1wSys 2 (TimerCb.moveTO "AAAAAA" "up")).log =
      [Ev.moveMissed (some "s2") "up", Ev.opponentMissed (some "s1") "up"] ∧
    defendMoveSys (runCb c1wSys 2 (TimerCb.moveTO "AAAAAA" "up")) "s2" "up" 1500 =
      runCb c1wSys 2 (TimerCb.moveTO "AAAAAA" "up") := by
  have h := defend_timeout_exclusive c1wSys "s2" "AAAAAA" "up" "up"
    { matchCode := some "AAAAAA", playerRole := some "player2" }
    c1wMatch { direction := "up", timestamp := 100, responded := false } 1500 2
    (by decide) rfl (by decide) (by decide) (by decide) (by decide) (by decide)
  refine ⟨?_, h.2.2.2.1, ?_, h.2.2.2.2.2.2.2.1⟩
  · rw [h.1]; decide
  · rw [h.2.2.2.2.1]; decide

/-- Claim C7: `joinMatch` with an unknown (uppercased) code answers only a
`Match not found` error to the requester and changes no state; with slot B
already occupied it answers only a `Match is full` error and changes no
state; otherwise the requester fills slot B, both participants are told
the match started, and the first round begins (roles assigned, state
`countdown`, countdown interval armed). -/
theorem joinMatch_spec (s : Sys) (sid raw : String) :
    (lookupE s.matchesMap (jsToUpperCase raw) = none →
      joinMatchSys s sid raw =
        { s with log := s.log ++ [Ev.joinError sid "Match not found"] }) ∧
    (∀ m p, lookupE s.matchesMap (jsToUpperCase raw) = some m →
      m.player2 = some p → ¬ p = "" →
      joinMatchSys s sid raw =
        { s with log := s.log ++ [Ev.joinError sid "Match is full"] }) ∧
    (∀ m, lookupE s.matchesMap (jsToUpperCase raw) = some m →
      m.player2 = none → m.currentRound % 2 = 1 →
      lookupE (joinMatchSys s sid raw).matchesMap (jsToUpperCase raw) =
        some { m with player2 := some sid, currentAttacker := some m.player1,
                      currentDefender := some sid, state := "countdown" } ∧
      (joinMatchSys s sid raw).log = s.log ++
        [Ev.matchStarted (jsToUpperCase raw) m.player1 sid,
         Ev.roundStart (some m.player1) m.currentRound m.totalRounds "attacker" 3,
         Ev.roundStart (some sid) m.currentRound m.totalRounds "defender" 3] ∧
      (joinMatchSys s sid raw).pending = s.pending ++
        [(s.nextId, TimerCb.countdownTick (jsToUpperCase raw) 3)]) := by
  refine ⟨fun hnone => ?_, fun m p hm hp hne => ?_, fun m hm hp hodd => ?_⟩
  · simp [joinMatchSys, joinMatchAux, hnone]
  · simp [joinMatchSys, joinMatchAux, hm, truthyStr, hp, hne]
  · have hstep : joinMatchSys s sid raw = startRoundCountdownSys
        { s with
          matchesMap := setEnt s.matchesMap (jsToUpperCase raw) { m with player2 := some sid },
          sockets := setEnt s.sockets sid
            { matchCode := some (jsToUpperCase raw), playerRole := some "player2" },
          log := s.log ++ [Ev.matchStarted (jsToUpperCase raw) m.player1 sid] }
        (jsToUpperCase raw) := by
      simp [joinMatchSys, joinMatchAux, hm, truthyStr, hp]
    rw [hstep]
    have hl : lookupE (setEnt s.matchesMap (jsToUpperCase raw)
        { m with player2 := some sid }) (jsToUpperCase raw) =
        some { m with player2 := some sid } := lookupE_setEnt_self _ _ _
    refine ⟨?_, ?_, ?_⟩
    · simp only [startRoundCountdownSys, hl]
      simp only [show ({ m with player2 := some sid } : RMatch).currentRound % 2 = 1 from hodd,
        if_pos rfl]
      simp [lookupE]
    · simp only [startRoundCountdownSys, hl]
      simp [show ({ m with player2 := some sid } : RMatch).currentRound % 2 = 1 from hodd]
    · simp only [startRoundCountdownSys, hl]

/-- Fixture for the C7 witness: a waiting one-match registry (slot B free). -/
def c7wOpen : Sys :=
  { matchesMap := [("AAAAAA", newRMatch "s1" "AAAAAA")],
    pending := [], nextId := 0,
    sockets := [("s1", { matchCode := some "AAAAAA", playerRole := some "player1" })],
    log := [] }

/-- Fixture for the C7 witness: the same registry with slot B occupied. -/
def c7wFull : Sys :=
  { matchesMap := [("AAAAAA", { newRMatch "s1" "AAAAAA" with player2 := some "s2" })],
    pending := [], nextId := 0,
    sockets := [("s1", { matchCode := some "AAAAAA", playerRole := some "player1" })],
    log := [] }

/-- Witness for C7: the three join outcomes at concrete inputs — unknown
code (also exercising the lowercase normalization), full match, and a
successful join that starts round 1. -/
theorem joinMatch_spec_witness :
    joinMatchSys c7wOpen "s9" "zzzzzz" =
      { c7wOpen with log := [Ev.joinError "s9" "Match not found"] } ∧
    joinMatchSys c7wFull "s9" "aaaaaa" =
      { c7wFull with log := [Ev.joinError "s9" "Match is full"] } ∧
    lookupE (joinMatchSys c7wOpen "s9" "aaaaaa").matchesMap "AAAAAA" =
      some { newRMatch "s1" "AAAAAA" with
             player2 := some "s9", currentAttacker := some "s1",
             currentDefender := some "s9", state := "countdown" } ∧
    (joinMatchSys c7wOpen "s9" "aaaaaa").log =
      [Ev.matchStarted "AAAAAA" "s1" "s9",
       Ev.roundStart (some "s1") 1 4 "attacker" 3,
       Ev.roundStart (some "s9") 1 4 "defender" 3] ∧
    (joinMatchSys c7wOpen "s9" "aaaaaa").pending = [(0, TimerCb.countdownTick "AAAAAA" 3)] := by
  have h1 := (joinMatch_spec c7wOpen "s9" "zzzzzz").1 (by decide)
  have h2 := (joinMatch_spec c7wFull "s9" "aaaaaa").2.1
    { newRMatch "s1" "AAAAAA" with player2 := some "s2" } "s2" (by decide) rfl (by decide)
  have h3 := (joinMatch_spec c7wOpen "s9" "aaaaaa").2.2
    (newRMatch "s1" "AAAAAA") (by decide) rfl (by decide)
  refine ⟨?_, ?_, ?_, ?_, ?_⟩
  · rw [h1]; decide
  · rw [h2]; decide
  · rw [show ("AAAAAA" : String) = jsToUpperCase "aaaaaa" from by decide]
    exact h3.1
  · rw [h3.2.1]; decide
  · rw [h3.2.2]; decide

/-- Claim C8: `proposeRematch` is accepted only in `matchEnd`.  A proposal
from one side (other flag unset) records only that side's flag, notifies
only the other participant, leaves round, scores and pending timers
untouched, and causes no reset.  The proposal that completes the pair —
in either order — resets round to 1, both scores to 0 and both flags to
false exactly once, emits `rematchStarting`, and schedules the 1 s restart
callback, which re-invokes `startRoundCountdown`. -/
theorem proposeRematch_spec (s : Sys) (sid code : String) (sock : Sock) (m : RMatch)
    (hsock : lookupE s.sockets sid = some sock) (hmc : sock.matchCode = some code)
    (hm : lookupE s.matchesMap code = some m) :
    (¬ m.state = "matchEnd" → proposeRematchSys s sid = s) ∧
    (m.state = "matchEnd" → sock.playerRole = some "player1" → m.rematch2 = false →
      lookupE (proposeRematchSys s sid).matchesMap code = some { m with rematch1 := true } ∧
      (proposeRematchSys s sid).log = s.log ++ [Ev.rematchProposed m.player2] ∧
      (proposeRematchSys s sid).pending = s.pending) ∧
    (m.state = "matchEnd" → ¬ sock.playerRole = some "player1" → m.rematch1 = false →
      lookupE (proposeRematchSys s sid).matchesMap code = some { m with rematch2 := true } ∧
      (proposeRematchSys s sid).log = s.log ++ [Ev.rematchProposed (some m.player1)] ∧
      (proposeRematchSys s sid).pending = s.pending) ∧
    (m.state = "matchEnd" → sock.playerRole = some "player1" → m.rematch2 = true →
      lookupE (proposeRematchSys s sid).matchesMap code =
        some { m with currentRound := 1, scores1 := 0, scores2 := 0,
                      rematch1 := false, rematch2 := false } ∧
      (proposeRematchSys s sid).log = s.log ++
        [Ev.rematchProposed m.player2, Ev.rematchStarting code] ∧
      (proposeRematchSys s sid).pending = s.pending ++
        [(s.nextId, TimerCb.rematchDelay code)]) ∧
    (m.state = "matchEnd" → ¬ sock.playerRole = some "player1" → m.rematch1 = true →
      lookupE (proposeRematchSys s sid).matchesMap code =
        some { m with currentRound := 1, scores1 := 0, scores2 := 0,
                      rematch1 := false, rematch2 := false } ∧
      (proposeRematchSys s sid).log = s.log ++
        [Ev.rematchProposed (some m.player1), Ev.rematchStarting code] ∧
      (proposeRematchSys s sid).pending = s.pending ++
        [(s.nextId, TimerCb.rematchDelay code)]) ∧
    (∀ s2 i, runCb s2 i (TimerCb.rematchDelay code) = startRoundCountdownSys s2 code) := by
  refine ⟨fun hst => ?_, fun hst hrole hflag => ?_, fun hst hrole hflag => ?_,
    fun hst hrole hflag => ?_, fun hst hrole hflag => ?_, fun s2 i => rfl⟩
  · simp [proposeRematchSys, hsock, hmc, hm, hst]
  · have : proposeRematchSys s sid =
        { s with
          matchesMap := setEnt s.matchesMap code { m with rematch1 := true },
          log := s.log ++ [Ev.rematchProposed m.player2] } := by
      simp [proposeRematchSys, hsock, hmc, hm, hst, hrole, hflag]
    rw [this]
    exact ⟨lookupE_setEnt_self _ _ _, rfl, rfl⟩
  · have : proposeRematchSys s sid =
        { s with
          matchesMap := setEnt s.matchesMap code { m with rematch2 := true },
          log := s.log ++ [Ev.rematchProposed (some m.player1)] } := by
      simp [proposeRematchSys, hsock, hmc, hm, hst, hrole, hflag]
    rw [this]
    exact ⟨lookupE_setEnt_self _ _ _, rfl, rfl⟩
  · have : proposeRematchSys s sid =
        { s with
          matchesMap := setEnt s.matchesMap code
            { m with currentRound := 1, scores1 := 0, scores2 := 0,
                     rematch1 := false, rematch2 := false },
          pending := s.pending ++ [(s.nextId, TimerCb.rematchDelay code)],
          nextId := s.nextId + 1,
          log := s.log ++ [Ev.rematchProposed m.player2, Ev.rematchStarting code] } := by
      simp [proposeRematchSys, hsock, hmc, hm, hst, hrole, hflag]
    rw [this]
    exact ⟨lookupE_setEnt_self _ _ _, rfl, rfl⟩
  · have : proposeRematchSys s sid =
        { s with
          matchesMap := setEnt s.matchesMap code
            { m with currentRound := 1, scores1 := 0, scores2 := 0,
                     rematch1 := false, rematch2 := false },
          pending := s.pending ++ [(s.nextId, TimerCb.rematchDelay code)],
          nextId := s.nextId + 1,
          log := s.log ++ [Ev.rematchProposed (some m.player1), Ev.rematchStarting code] } := by
      simp [proposeRematchSys, hsock, hmc, hm, hst, hrole, hflag]
    rw [this]
    exact ⟨lookupE_setEnt_self _ _ _, rfl, rfl⟩

/-- Fixture match for the C8 witness: finished (state `matchEnd`) with
scores 2-1 after round 4, no rematch flags yet. -/
def c8wMatch : RMatch :=
  { newRMatch "s1" "AAAAAA" with
    player2 := some "s2", currentRound := 4, scores1 := 2, scores2 := 1,
    state := "matchEnd" }

/-- Fixture system for the C8 witness. -/
def c8wSys : Sys :=
  { matchesMap := [("AAAAAA", c8wMatch)],
    pending := [], nextId := 5,
    sockets := [("s1", { matchCode := some "AAAAAA", playerRole := some "player1" }),
                ("s2", { matchCode := some "AAAAAA", playerRole := some "player2" })],
    log := [] }

/-- Witness for C8: player 1 proposes first (flag recorded, opponent
notified, no reset, nothing scheduled), then player 2's proposal completes
the pair (single reset to round 1 / 0-0 with both flags cleared, one
`rematchStarting`, one scheduled restart). -/
theorem proposeRematch_spec_witness :
    lookupE (proposeRematchSys c8wSys "s1").matchesMap "AAAAAA" =
      some { c8wMatch with rematch1 := true } ∧
    (proposeRematchSys c8wSys "s1").log = [Ev.rematchProposed (some "s2")] ∧
    (proposeRematchSys c8wSys "s1").pending = [] ∧
    lookupE (proposeRematchSys (proposeRematchSys c8wSys "s1") "s2").matchesMap "AAAAAA" =
      some { c8wMatch with currentRound := 1, scores1 := 0, scores2 := 0,
                           rematch1 := false, rematch2 := false } ∧
    (proposeRematchSys (proposeRematchSys c8wSys "s1") "s2").log =
      [Ev.rematchProposed (some "s2"), Ev.rematchProposed (some "s1"),
       Ev.rematchStarting "AAAAAA"] ∧
    (proposeRematchSys (proposeRematchSys c8wSys "s1") "s2").pending =
      [(5, TimerCb.rematchDelay "AAAAAA")] := by
  have h1 := (proposeRematch_spec c8wSys "s1" "AAAAAA"
    { matchCode := some "AAAAAA", playerRole := some "player1" } c8wMatch
    (by decide) rfl (by decide)).2.1 rfl rfl rfl
  have h2 := (proposeRematch_spec (proposeRematchSys c8wSys "s1") "s2" "AAAAAA"
    { matchCode := some "AAAAAA", playerRole := some "player2" }
    { c8wMatch with rematch1 := true }
    (by decide) rfl (by decide)).2.2.2.2.1 rfl (by decide) rfl
  refine ⟨h1.1, ?_, h1.2.2, h2.1, ?_, ?_⟩
  · rw [h1.2.1]; decide
  · rw [h2.2.1, h1.2.1]; decide
  · rw [h2.2.2, h1.2.2]; decide

/-- The C9 counterexample trace.  A `createMatch` collision (possible
because codes are random and never checked, see C4) leaves the first
match's countdown interval running against the new match object: its last
tick calls `startRound`, which installs a 30 s round interval (id 1) on
the new match.  When the second player then joins, the normal countdown
(id 2) runs and its own `startRound` stores a second round interval
(id 3), overwriting — but not clearing — the handle of id 1, which leaks.
Interval id 3 reaches 0 first and `endRound` clears the stored handle;
the leaked id 1 keeps firing, and every tick at or below 0 calls
`endRound` again, each time scheduling another 3 s round-increment
callback while `currentRound` is still 1 < 4.  Firing the four accumulated
increment callbacks (ids 4, 5, 6, 8) drives `currentRound` to 5, past
`totalRounds = 4`.  The firing order respects the timers' due order
(ticks every second, increments due 3 s after scheduling). -/
def c9acts : List Act :=
  [Act.create "s1" "AAAAAA", Act.join "s2" "AAAAAA", Act.create "s3" "AAAAAA",
   Act.fire 0, Act.fire 0, Act.fire 0, Act.fire 0,
   Act.join "s4" "AAAAAA",
   Act.fire 1, Act.fire 2, Act.fire 1, Act.fire 2,
   Act.fire 1, Act.fire 2, Act.fire 1, Act.fire 2]
  ++ (List.replicate 25 [Act.fire 1, Act.fire 3]).flatten
  ++ [Act.fire 1,
      Act.fire 1, Act.fire 1, Act.fire 4, Act.fire 1, Act.fire 5,
      Act.fire 1, Act.fire 6, Act.fire 1, Act.fire 8]

set_option maxRecDepth 8000 in
/-- Counterexample for C9: a reachable state of the reactive server in
which a match's `currentRound` (5) exceeds its `totalRounds` (4) — the
claimed invariants "round number strictly increases by 1 per round" bound
by `totalRounds` do not hold on the code once a leaked round interval
makes `endRound` fire more than once per round. -/
theorem endRound_claim_false :
    (lookupE (runActs sysInit c9acts).matchesMap "AAAAAA").map
        (fun m => (m.currentRound, m.totalRounds)) = some (5, 4) ∧ 5 > 4 := by
  exact ⟨by decide, by decide⟩

/-- Claim C9, amended: `endRound` itself behaves as specified — it cancels
the stored round/move timers, enters `roundEnd`, emits the round result,
and schedules `endMatch` (2 s) when `currentRound ≥ totalRounds` (equality,
under the intended `currentRound ≤ totalRounds` bound) and otherwise the
3 s callback that increments the round by exactly 1 and restarts the
countdown; the increment callback is only scheduled when
`currentRound < totalRounds` held at scheduling time.  The claim's global
bound fails only when duplicate round intervals leak (see the
counterexample). -/
theorem endRound_spec (s : Sys) (code : String) (m : RMatch) (rt mt : Nat)
    (hm : lookupE s.matchesMap code = some m)
    (hrt : m.roundTimer = some rt) (hmt : m.moveTimeout = some mt)
    (hrtne : ¬ rt = s.nextId) (hmtne : ¬ mt = s.nextId) :
    lookupE (endRoundSys s code).pending rt = none ∧
    lookupE (endRoundSys s code).pending mt = none ∧
    lookupE (endRoundSys s code).matchesMap code =
      some { m with roundTimer := none, moveTimeout := none, state := "roundEnd" } ∧
    (endRoundSys s code).log = s.log ++
      [Ev.roundEnded code m.currentRound m.scores1 m.scores2] ∧
    (m.currentRound ≥ m.totalRounds →
      (endRoundSys s code).pending =
        remTimer (remTimer s.pending (some rt)) (some mt) ++
          [(s.nextId, TimerCb.endMatchDelay code)]) ∧
    (m.currentRound < m.totalRounds →
      (endRoundSys s code).pending =
        remTimer (remTimer s.pending (some rt)) (some mt) ++
          [(s.nextId, TimerCb.interRoundNext code)]) ∧
    (∀ (s2 : Sys) (m2 : RMatch) (i : Nat), lookupE s2.matchesMap code = some m2 →
      (lookupE (runCb s2 i (TimerCb.interRoundNext code)).matchesMap code).map
        (fun x => x.currentRound) = some (m2.currentRound + 1)) := by
  have he : endRoundSys s code =
      { s with
        matchesMap := setEnt s.matchesMap code
          { m with roundTimer := none, moveTimeout := none, state := "roundEnd" },
        pending := remTimer (remTimer s.pending (some rt)) (some mt) ++
          [(s.nextId,
            if m.currentRound ≥ m.totalRounds then TimerCb.endMatchDelay code
            else TimerCb.interRoundNext code)],
        nextId := s.nextId + 1,
        log := s.log ++ [Ev.roundEnded code m.currentRound m.scores1 m.scores2] } := by
    simp only [endRoundSys, hm]
    rw [hrt, hmt]
  have hne1 : ¬ s.nextId = rt := fun hc => hrtne hc.symm
  have hne2 : ¬ s.nextId = mt := fun hc => hmtne hc.symm
  refine ⟨?_, ?_, ?_, ?_, fun hge => ?_, fun hlt => ?_, fun s2 m2 i hm2 => ?_⟩
  · rw [he]
    show lookupE (remTimer (remTimer s.pending (some rt)) (some mt) ++ _) rt = none
    rw [lookupE_append]
    rw [lookupE_remTimer, lookupE_remTimer]
    by_cases h2 : (some mt : Option Nat) = some rt <;> simp [h2, lookupE, hne1]
  · rw [he]
    show lookupE (remTimer (remTimer s.pending (some rt)) (some mt) ++ _) mt = none
    rw [lookupE_append, lookupE_remTimer]
    simp [lookupE, hne2]
  · rw [he]; exact lookupE_setEnt_self _ _ _
  · rw [he]
  · rw [he]; simp [hge]
  · rw [he]; simp [show ¬ m.currentRound ≥ m.totalRounds from by omega]
  · have hi : runCb s2 i (TimerCb.interRoundNext code) =
        startRoundCountdownSys { s2 with matchesMap := setEnt s2.matchesMap code { m2 with currentRound := m2.currentRound + 1 } } code := by
      simp [runCb, hm2]
    rw [hi]
    have hl : lookupE (setEnt s2.matchesMap code
        { m2 with currentRound := m2.currentRound + 1 }) code =
        some { m2 with currentRound := m2.currentRound + 1 } := lookupE_setEnt_self _ _ _
    simp only [startRoundCountdownSys, hl]
    by_cases hpar : ({ m2 with currentRound := m2.currentRound + 1 } : RMatch).currentRound % 2 = 1 <;>
      simp [hpar, lookupE_setEnt_self]

/-- Fixture for the C9 witness: round 2 of 4 in `playing`, with the round
interval (id 1) and a move timeout (id 2) stored and pending. -/
def c9wMatch : RMatch :=
  { newRMatch "s1" "AAAAAA" with
    player2 := some "s2", currentRound := 2, state := "playing",
    currentAttacker := some "s2", currentDefender := some "s1",
    roundTimer := some 1, moveTimeout := some 2 }

/-- Fixture system for the C9 witness. -/
def c9wSys : Sys :=
  { matchesMap := [("AAAAAA", c9wMatch)],
    pending := [(1, TimerCb.roundTick "AAAAAA" 1), (2, TimerCb.moveTO "AAAAAA" "up")],
    nextId := 3, sockets := [], log := [] }

/-- Witness for C9's amended theorem: ending round 2 of 4 cancels both
stored timers, enters `roundEnd`, emits the round result, schedules the
3 s increment callback, and that callback bumps the round from 2 to
exactly 3. -/
theorem endRound_spec_witness :
    lookupE (endRoundSys c9wSys "AAAAAA").pending 1 = none ∧
    lookupE (endRoundSys c9wSys "AAAAAA").pending 2 = none ∧
    lookupE (endRoundSys c9wSys "AAAAAA").matchesMap "AAAAAA" =
      some { c9wMatch with roundTimer := none, moveTimeout := none, state := "roundEnd" } ∧
    (endRoundSys c9wSys "AAAAAA").log = [Ev.roundEnded "AAAAAA" 2 0 0] ∧
    (endRoundSys c9wSys "AAAAAA").pending = [(3, TimerCb.interRoundNext "AAAAAA")] ∧
    (lookupE (runCb (endRoundSys c9wSys "AAAAAA") 3
        (TimerCb.interRoundNext "AAAAAA")).matchesMap "AAAAAA").map
      (fun x => x.currentRound) = some 3 := by
  have h := endRound_spec c9wSys "AAAAAA" c9wMatch 1 2 (by decide) rfl rfl
    (by decide) (by decide)
  refine ⟨h.1, h.2.1, h.2.2.1, ?_, ?_, ?_⟩
  · rw [h.2.2.2.1]; decide
  · rw [h.2.2.2.2.2.1 (by decide)]; decide
  · have h2 := h.2.2.2.2.2.2 (endRoundSys c9wSys "AAAAAA")
      { c9wMatch with roundTimer := none, moveTimeout := none, state := "roundEnd" } 3
      h.2.2.1
    rw [h2]; decide

/-- Player 1's score is 0 in every registered match (guessing variant). -/
def ScoresInvG (l : List (String × GMatch)) : Prop := ∀ p ∈ l, (Prod.snd p).scores1 = 0

/-- Every `matchEnd` notification ever emitted names `player2` or `tie` as
the winner. -/
def WinnersInvG (log : List Ev) : Prop :=
  ∀ room a b w, Ev.matchEnd room a b w ∈ log → w = "player2" ∨ w = "tie"

/-- The C10 invariant of the guessing-variant server. -/
def GInv (s : GSys) : Prop := ScoresInvG s.matchesMap ∧ WinnersInvG s.log

theorem scoresInvG_set {l : List (String × GMatch)} {c : String} {m : GMatch}
    (h : ScoresInvG l) (hm : m.scores1 = 0) : ScoresInvG (setEnt l c m) := by
  intro p hp
  simp only [setEnt, List.mem_cons] at hp
  rcases hp with hp | hp
  · rw [hp]; exact hm
  · exact h p (List.mem_of_mem_filter hp)

theorem scoresInvG_del {l : List (String × GMatch)} {c : String}
    (h : ScoresInvG l) : ScoresInvG (delEnt l c) :=
  fun p hp => h p (List.mem_of_mem_filter hp)

theorem scoresInvG_get {l : List (String × GMatch)} {c : String} {m : GMatch}
    (h : ScoresInvG l) (hg : lookupE l c = some m) : m.scores1 = 0 := by
  induction l with
  | nil => simp [lookupE] at hg
  | cons p rest ih =>
    simp only [lookupE] at hg
    by_cases hp : p.1 = c
    · rw [if_pos hp] at hg
      cases hg
      exact h p (List.mem_cons_self _ _)
    · rw [if_neg hp] at hg
      exact ih (fun q hq => h q (List.mem_cons_of_mem _ hq)) hg

theorem winnersInvG_append {log l2 : List Ev}
    (h1 : WinnersInvG log) (h2 : WinnersInvG l2) : WinnersInvG (log ++ l2) := by
  intro room a b w hw
  rcases List.mem_append.mp hw with hw | hw
  · exact h1 room a b w hw
  · exact h2 room a b w hw

/-- The guessing-variant winner for a zero player-1 score is never
`player1`. -/
theorem gWinner_zero (x : Nat) : gWinner 0 x = "player2" ∨ gWinner 0 x = "tie" := by
  unfold gWinner
  rw [if_neg (by omega)]
  by_cases h : x > 0
  · rw [if_pos h]; exact Or.inl rfl
  · rw [if_neg h]; exact Or.inr rfl

theorem ginv_create {s : GSys} (h : GInv s) (sid code : String) :
    GInv (createMatchG s sid code) := by
  refine ⟨scoresInvG_set h.1 rfl, winnersInvG_append h.2 ?_⟩
  intro room a b w hw
  simp at hw

theorem ginv_join {s : GSys} (h : GInv s) (sid raw : String) :
    GInv (joinMatchG s sid raw) := by
  unfold joinMatchG
  rcases hl : lookupE s.matchesMap (jsToUpperCase raw) with _ | m <;> simp only [hl]
  · exact ⟨h.1, winnersInvG_append h.2 (by intro room a b w hw; simp at hw)⟩
  · by_cases ht : truthyStr m.player2 = true
    · rw [if_pos ht]
      exact ⟨h.1, winnersInvG_append h.2 (by intro room a b w hw; simp at hw)⟩
    · rw [if_neg ht]
      refine ⟨scoresInvG_set h.1 ?_, winnersInvG_append h.2 ?_⟩
      · have hz : m.scores1 = 0 := scoresInvG_get h.1 hl
        exact hz
      · intro room a b w hw; simp at hw

theorem ginv_comb {s : GSys} (h : GInv s) (sid : String) (comb : List String) :
    GInv (submitCombinationG s sid comb) := by
  unfold submitCombinationG
  rcases hs : lookupE s.sockets sid with _ | sock <;> simp only [hs]
  · exact h
  rcases hc : sock.matchCode with _ | code <;> simp only [hc]
  · exact h
  rcases hl : lookupE s.matchesMap code with _ | m <;> simp only [hl]
  · exact h
  by_cases hrole : ¬ sock.playerRole = some "player1"
  · rw [if_pos hrole]; exact h
  rw [if_neg hrole]
  by_cases hlen : ¬ comb.length = 4
  · rw [if_pos hlen]
    exact ⟨h.1, winnersInvG_append h.2 (by intro room a b w hw; simp at hw)⟩
  · rw [if_neg hlen]
    refine ⟨scoresInvG_set h.1 ?_, winnersInvG_append h.2 ?_⟩
    · have hz : m.scores1 = 0 := scoresInvG_get h.1 hl
      exact hz
    · intro room a b w hw; simp at hw

theorem ginv_guess {s s1 : GSys} (h : GInv s) {sid : String} {g : List String}
    (hok : submitGuessG s sid g = Except.ok s1) : GInv s1 := by
  unfold submitGuessG at hok
  rcases hs : lookupE s.sockets sid with _ | sock <;> simp only [hs] at hok
  · exact Except.ok.inj hok ▸ h
  rcases hc : sock.matchCode with _ | code <;> simp only [hc] at hok
  · exact Except.ok.inj hok ▸ h
  rcases hl : lookupE s.matchesMap code with _ | m <;> simp only [hl] at hok
  · exact Except.ok.inj hok ▸ h
  by_cases hrole : ¬ sock.playerRole = some "player2"
  · rw [if_pos hrole] at hok; exact Except.ok.inj hok ▸ h
  rw [if_neg hrole] at hok
  rcases hcomb : m.combination with _ | combination <;> simp only [hcomb] at hok
  · simp at hok
  have hms : m.scores1 = 0 := scoresInvG_get h.1 hl
  by_cases hlast : m.currentRound ≥ m.totalRounds
  · rw [if_pos hlast] at hok
    have h2 := Except.ok.inj hok
    subst h2
    refine ⟨scoresInvG_set (scoresInvG_set h.1 ?_) ?_, ?_⟩
    · show m.scores1 = 0
      exact hms
    · exact hms
    · rw [List.append_assoc]
      refine winnersInvG_append h.2 ?_
      intro room a b w hw
      simp only [List.mem_append, List.mem_singleton] at hw
      rcases hw with hw | hw
      · simp at hw
      · cases hw
        rw [hms]
        exact gWinner_zero _
  · rw [if_neg hlast] at hok
    have h2 := Except.ok.inj hok
    subst h2
    refine ⟨scoresInvG_set h.1 ?_, winnersInvG_append h.2 ?_⟩
    · exact hms
    · intro room a b w hw; simp at hw

theorem ginv_rematch {s : GSys} (h : GInv s) (sid : String) :
    GInv (proposeRematchG s sid) := by
  unfold proposeRematchG
  rcases hs : lookupE s.sockets sid with _ | sock <;> simp only [hs]
  · exact h
  rcases hc : sock.matchCode with _ | code <;> simp only [hc]
  · exact h
  rcases hl : lookupE s.matchesMap code with _ | m <;> simp only [hl]
  · exact h
  by_cases hst : ¬ m.state = "matchEnd"
  · rw [if_pos hst]; exact h
  rw [if_neg hst]
  have hms : m.scores1 = 0 := scoresInvG_get h.1 hl
  by_cases hrole : sock.playerRole = some "player1" <;>
    simp only [hrole, if_true, if_false, reduceIte] <;>
    split <;>
    exact ⟨scoresInvG_set h.1 (by first | rfl | exact hms),
      winnersInvG_append h.2 (by intro room a b w hw; simp at hw)⟩

theorem ginv_disc {s : GSys} (h : GInv s) (sid : String) :
    GInv (disconnectG s sid) := by
  unfold disconnectG
  rcases hs : lookupE s.sockets sid with _ | sock <;> simp only [hs]
  · exact h
  rcases hc : sock.matchCode with _ | code <;> simp only [hc]
  · exact h
  rcases hl : lookupE s.matchesMap code with _ | m <;> simp only [hl]
  · exact h
  exact ⟨scoresInvG_del h.1,
    winnersInvG_append h.2 (by intro room a b w hw; simp at hw)⟩

theorem ginv_fire {s : GSys} (h : GInv s) (id : Nat) :
    GInv (fireTimerG s id) := by
  unfold fireTimerG
  rcases hp : lookupE s.pending id with _ | cb <;> simp only [hp]
  · exact h
  have h1 : GInv { s with pending := delEnt s.pending id } := ⟨h.1, h.2⟩
  rcases cb with ⟨code, count⟩ | ⟨code⟩ | ⟨code⟩
  · show GInv (runCbG _ id (GTimerCb.countdownTick code count))
    unfold runCbG
    dsimp only
    by_cases hcnt : count - 1 < 0
    · rw [if_pos hcnt]
      rcases hl : lookupE s.matchesMap code with _ | m <;> simp only [hl]
      · exact ⟨h1.1, winnersInvG_append h1.2 (by intro room a b w hw; simp at hw)⟩
      · have hz : m.scores1 = 0 := scoresInvG_get h1.1 hl
        refine ⟨scoresInvG_set h1.1 hz, ?_⟩
        rw [List.append_assoc]
        exact winnersInvG_append h1.2 (by intro room a b w hw; simp at hw)
    · rw [if_neg hcnt]
      exact ⟨h1.1, winnersInvG_append h1.2 (by intro room a b w hw; simp at hw)⟩
  · show GInv (runCbG _ id (GTimerCb.nextRoundDelay code))
    unfold runCbG
    dsimp only
    rcases hl : lookupE s.matchesMap code with _ | m <;> simp only [hl]
    · exact h1
    · have hz : m.scores1 = 0 := scoresInvG_get h1.1 hl
      exact ⟨scoresInvG_set h1.1 hz,
        winnersInvG_append h1.2 (by intro room a b w hw; simp at hw)⟩
  · show GInv (runCbG _ id (GTimerCb.rematchNotify code))
    unfold runCbG
    dsimp only
    rcases hl : lookupE s.matchesMap code with _ | m <;> simp only [hl]
    · exact h1
    · exact ⟨h1.1, winnersInvG_append h1.2 (by intro room a b w hw; simp at hw)⟩

/-- One step of the guessing-variant server preserves the C10 invariant. -/
theorem ginv_step {s s1 : GSys} {a : GAct} (h : GInv s) (hr : runActG s a = some s1) :
    GInv s1 := by
  cases a with
  | create sid code => cases hr; exact ginv_create h sid code
  | join sid raw => cases hr; exact ginv_join h sid raw
  | combination sid comb => cases hr; exact ginv_comb h sid comb
  | guess sid g =>
    simp only [runActG] at hr
    rcases hg : submitGuessG s sid g with e | s2 <;> rw [hg] at hr
    · cases hr
    · cases hr; exact ginv_guess h hg
  | rematch sid => cases hr; exact ginv_rematch h sid
  | disc sid => cases hr; exact ginv_disc h sid
  | fire id => cases hr; exact ginv_fire h id

/-- Every reachable guessing-variant state satisfies the C10 invariant. -/
theorem ginv_reach {s : GSys} (h : GReach s) : GInv s := by
  induction h with
  | init =>
    refine ⟨?_, ?_⟩
    · intro p hp; simp [gsysInit] at hp
    · intro room a b w hw; simp [gsysInit] at hw
  | step _ hr ih => exact ginv_step ih hr

/-- Claim C10: in the guessing variant, only player 2's score is ever
incremented — player 1's score is 0 in every match of every reachable
server state (from creation until a rematch reset, which re-zeroes it) —
and consequently every `matchEnd` notification ever emitted reports
`player2` or `tie` as the winner, never `player1`. -/
theorem guessing_player1_never_scores {s : GSys} (h : GReach s) :
    (∀ (code : String) (m : GMatch), lookupE s.matchesMap code = some m → m.scores1 = 0) ∧
    (∀ (room : String) (a b : Nat) (w : String),
      Ev.matchEnd room a b w ∈ s.log → w = "player2" ∨ w = "tie") := by
  have hi := ginv_reach h
  exact ⟨fun code m hm => scoresInvG_get hi.1 hm, hi.2⟩

/-- Witness for C10: the invariant at a concrete reachable state (a match
just created by `s1`). -/
theorem guessing_player1_never_scores_witness :
    (newGMatch "s1" "AAAAAA").scores1 = 0 :=
  (guessing_player1_never_scores
    (GReach.step GReach.init
      (show runActG gsysInit (GAct.create "s1" "AAAAAA") =
        some (createMatchG gsysInit "s1" "AAAAAA") from rfl))).1
    "AAAAAA" (newGMatch "s1" "AAAAAA") (by decide)
